import Mathlib

/-!
Verification development for the risk-controlled position lifecycle engine
(nof1.ai). JavaScript numbers are modelled as rationals; the fallible tool
entry points are modelled as Option-returning functions; the database rows
touched by the claims are modelled as explicit records and lists.
-/

namespace Nof1

/-- Side of a position, the `side` field of the source ("long" | "short"). -/
inductive Side
  | long
  | short
deriving DecidableEq, Repr

/-- Sign used by the leveraged PnL percentage: 1 for a long, -1 for a short
(tradingLoop.ts line 1226). -/
def Side.sign : Side → ℚ
  | .long => 1
  | .short => -1

/-- The opposite direction, used when a close order is placed and by the
position-reversal mode. -/
def Side.opposite : Side → Side
  | .long => .short
  | .short => .long

/-- Taker fee rate per leg, 0.0005, used at every fee computation site. -/
def feeRate : ℚ := 5 / 10000

/-- Directed price change of a close, `priceChange` in closePositionTool
(tradeExecution.ts lines 722-724): exit minus entry for a long position,
entry minus exit for a short position. -/
def priceChange (side : Side) (entryPrice exitPrice : ℚ) : ℚ :=
  match side with
  | .long => exitPrice - entryPrice
  | .short => entryPrice - exitPrice

/-- Opening-leg fee, `dbOpenFee` (tradeExecution.ts line 714):
entry notional times the fee rate. -/
def openFee (entryPrice quantity multiplier : ℚ) : ℚ :=
  entryPrice * quantity * multiplier * feeRate

/-- Closing-leg fee, `dbCloseFee` (tradeExecution.ts line 716):
exit notional times the fee rate. -/
def closeFee (exitPrice quantity multiplier : ℚ) : ℚ :=
  exitPrice * quantity * multiplier * feeRate

/-- Round-trip fee `totalFee` (tradeExecution.ts line 718). -/
def totalFee (entryPrice exitPrice quantity multiplier : ℚ) : ℚ :=
  openFee entryPrice quantity multiplier + closeFee exitPrice quantity multiplier

/-- Gross realized PnL of a close
(tradeExecution.ts line 725, first summand of `expectedPnl`). -/
def grossPnl (side : Side) (entryPrice exitPrice quantity multiplier : ℚ) : ℚ :=
  priceChange side entryPrice exitPrice * quantity * multiplier

/-- Net realized PnL, `expectedPnl` (tradeExecution.ts line 725):
gross PnL minus the round-trip fee. -/
def netPnl (side : Side) (entryPrice exitPrice quantity multiplier : ℚ) : ℚ :=
  grossPnl side entryPrice exitPrice quantity multiplier -
    totalFee entryPrice exitPrice quantity multiplier

/-- Notional value of the close, `notionalValue` (tradeExecution.ts line 721). -/
def notionalValue (exitPrice quantity multiplier : ℚ) : ℚ :=
  exitPrice * quantity * multiplier

/-- The PnL aliasing corrector run before the close Trade row is inserted
(tradeExecution.ts lines 720-738, and identically tradingLoop.ts lines
1388-1408): if the supplied pnl is strictly closer to the notional value than
to the expected net PnL it is replaced by the expected net PnL, otherwise it
is kept unchanged. -/
def correctClosePnl (side : Side) (entryPrice exitPrice quantity multiplier pnl : ℚ) : ℚ :=
  let notional := notionalValue exitPrice quantity multiplier
  let expected := netPnl side entryPrice exitPrice quantity multiplier
  if |pnl - notional| < |pnl - expected| then expected else pnl

/-- In the round-trip scenario entry=100, exit=110, quantity=10, multiplier=1
the expected net PnL evaluates to 98.95: gross 100 minus fees 0.5 and 0.55. -/
theorem netPnl_scenario : netPnl .long 100 110 10 1 = 9895 / 100 := by
  norm_num [netPnl, grossPnl, totalFee, openFee, closeFee, priceChange, feeRate]

/-- A supplied pnl of 1100 in that scenario is strictly closer to the notional
value 1100 than to the expected net PnL 98.95. -/
theorem scenario_alias_detected :
    |(1100 : ℚ) - notionalValue 110 10 1| < |(1100 : ℚ) - netPnl .long 100 110 10 1| := by
  have h1 : notionalValue 110 10 1 = 1100 := by norm_num [notionalValue]
  rw [h1, netPnl_scenario, sub_self, abs_zero, abs_of_nonneg (by norm_num)]
  norm_num

/-- C1: before the persisted write of a close Trade the corrector computes
notional = exit price × quantity × multiplier and expected = net PnL (gross
minus open and close fees); if |pnl − notional| < |pnl − expected| the
persisted pnl equals the expected net PnL, otherwise it equals the supplied
pnl; and at entry=100, exit=110, quantity=10, multiplier=1, fee rate 0.0005
per leg, a supplied pnl of 1100 is overwritten to 98.95. -/
theorem pnl_corrector_correction_rule :
    (∀ (side : Side) (entryPrice exitPrice quantity multiplier pnl : ℚ),
      (|pnl - notionalValue exitPrice quantity multiplier| <
          |pnl - netPnl side entryPrice exitPrice quantity multiplier| →
        correctClosePnl side entryPrice exitPrice quantity multiplier pnl =
          netPnl side entryPrice exitPrice quantity multiplier) ∧
      (¬ |pnl - notionalValue exitPrice quantity multiplier| <
          |pnl - netPnl side entryPrice exitPrice quantity multiplier| →
        correctClosePnl side entryPrice exitPrice quantity multiplier pnl = pnl)) ∧
    correctClosePnl .long 100 110 10 1 1100 = 9895 / 100 := by
  have hrule : ∀ (side : Side) (entryPrice exitPrice quantity multiplier pnl : ℚ),
      (|pnl - notionalValue exitPrice quantity multiplier| <
          |pnl - netPnl side entryPrice exitPrice quantity multiplier| →
        correctClosePnl side entryPrice exitPrice quantity multiplier pnl =
          netPnl side entryPrice exitPrice quantity multiplier) ∧
      (¬ |pnl - notionalValue exitPrice quantity multiplier| <
          |pnl - netPnl side entryPrice exitPrice quantity multiplier| →
        correctClosePnl side entryPrice exitPrice quantity multiplier pnl = pnl) := by
    intro side entryPrice exitPrice quantity multiplier pnl
    constructor
    · intro h
      simp only [correctClosePnl, if_pos h]
    · intro h
      simp only [correctClosePnl, if_neg h]
  refine ⟨hrule, ?_⟩
  have h := (hrule .long 100 110 10 1 1100).1 scenario_alias_detected
  rw [h, netPnl_scenario]

/-- Witness for C1: at entry=100, exit=110, quantity=10, multiplier=1 and
supplied pnl=1100 the correction branch hypothesis holds and the corrector
returns the expected net PnL. -/
theorem pnl_corrector_correction_rule_witness :
    correctClosePnl .long 100 110 10 1 1100 = netPnl .long 100 110 10 1 :=
  (pnl_corrector_correction_rule.1 .long 100 110 10 1 1100).1 scenario_alias_detected

/-- The mutable pair of a close row in the trades table that the historical
fixer may update: recorded pnl and recorded fee. -/
structure TradeRecord where
  pnl : ℚ
  fee : ℚ
deriving DecidableEq, Repr

/-- The recomputed correct values for one close trade in
fixHistoricalPnlRecords (tradingLoop.ts lines 1026-1035): gross PnL from the
matching open price and the close price, minus both leg fees. -/
def correctedRecord (side : Side) (openPrice closePrice quantity multiplier : ℚ) :
    TradeRecord :=
  { pnl := priceChange side openPrice closePrice * quantity * multiplier -
      (openPrice * quantity * multiplier * feeRate +
        closePrice * quantity * multiplier * feeRate)
    fee := openPrice * quantity * multiplier * feeRate +
      closePrice * quantity * multiplier * feeRate }

/-- One pass of fixHistoricalPnlRecords over a single close trade row
(tradingLoop.ts lines 1037-1053): the row is overwritten with the recomputed
pnl and fee when the pnl differs by more than 0.5 USDT or the fee by more
than 0.1 USDT, and is left unchanged otherwise. -/
def fixHistoricalRecord (side : Side) (openPrice closePrice quantity multiplier : ℚ)
    (t : TradeRecord) : TradeRecord :=
  let correct := correctedRecord side openPrice closePrice quantity multiplier
  if |t.pnl - correct.pnl| > 1 / 2 ∨ |t.fee - correct.fee| > 1 / 10 then correct else t

/-- C9: the historical-PnL corrector is a fixed point under repetition: for
every close Trade record, running the corrector twice yields exactly the same
persisted pnl and fee values as running it once. -/
theorem fix_historical_idempotent :
    ∀ (side : Side) (openPrice closePrice quantity multiplier : ℚ) (t : TradeRecord),
      fixHistoricalRecord side openPrice closePrice quantity multiplier
          (fixHistoricalRecord side openPrice closePrice quantity multiplier t) =
        fixHistoricalRecord side openPrice closePrice quantity multiplier t := by
  intro side openPrice closePrice quantity multiplier t
  simp only [fixHistoricalRecord]
  split_ifs <;> rfl

/-- Close quantity from the close percentage, closePositionTool
(tradeExecution.ts line 580): the floor of quantity × percentage / 100. -/
def computeCloseSize (quantity percentage : ℚ) : ℤ :=
  ⌊quantity * percentage / 100⌋

/-- The decision path of closePositionTool up to order placement
(tradeExecution.ts lines 540-614): the request is rejected when the
percentage fails validation (lines 540-545) or the live position is missing
or has zero quantity (lines 548-556); otherwise a reduce-only order is
placed whose quantity is the computed close size, with no check that the
computed size is nonzero. The result is the placed order quantity. -/
def closeOrderQuantity (posQuantity percentage : ℚ) : Option ℤ :=
  if percentage ≤ 0 ∨ 100 < percentage then none
  else if posQuantity = 0 then none
  else some (computeCloseSize posQuantity percentage)

/-- C10: for every live position with quantity q and accepted close
percentage p in [1,100], the close quantity is floor(q × p / 100), and
whenever q × p < 100 the computed close quantity is 0 yet the operation
still proceeds to place an order for 0 contracts instead of rejecting. -/
theorem close_quantity_floor_and_zero_proceeds :
    (∀ q p : ℚ, q ≠ 0 → 1 ≤ p → p ≤ 100 →
      closeOrderQuantity q p = some ⌊q * p / 100⌋) ∧
    (∀ q p : ℚ, 0 < q → 1 ≤ p → p ≤ 100 → q * p < 100 →
      closeOrderQuantity q p = some 0) := by
  constructor
  · intro q p hq h1 h100
    simp only [closeOrderQuantity, computeCloseSize]
    rw [if_neg (by push_neg; constructor <;> linarith), if_neg hq]
  · intro q p hq h1 h100 hsmall
    have hfloor : ⌊q * p / 100⌋ = 0 := by
      rw [Int.floor_eq_zero_iff]
      constructor
      · positivity
      · rw [div_lt_one (by norm_num)]
        exact hsmall
    simp only [closeOrderQuantity, computeCloseSize]
    rw [if_neg (by push_neg; constructor <;> linarith), if_neg (by positivity), hfloor]

/-- Witness for C10: a 50 percent close of a 1-contract position is accepted
and places an order for 0 contracts. -/
theorem close_quantity_floor_and_zero_proceeds_witness :
    closeOrderQuantity 1 50 = some 0 :=
  close_quantity_floor_and_zero_proceeds.2 1 50 (by norm_num) (by norm_num)
    (by norm_num) (by norm_num)

/-- Peak drawdown percentage, `drawdownFromPeak` (part_007 line 345 and
tradeExecution.ts lines 154-156): (peak − current) / peak × 100. -/
def drawdownFromPeak (peakBalance totalBalance : ℚ) : ℚ :=
  (peakBalance - totalBalance) / peakBalance * 100

/-- Which advisory warning line about account drawdown the prompt builder
appends to the decision-generator prompt (part_007 lines 355-361): the
CRITICAL WARNING line, the WARNING line, the REMINDER line, or none. These
lines are text handed to the external decision generator; this chain itself
closes no position, halts nothing and blocks nothing. -/
inductive DrawdownPromptWarning
  | critical
  | warning
  | reminder
  | noWarning
deriving DecidableEq, Repr

/-- The drawdown warning chain of the prompt builder (part_007 lines
355-361): the critical line when drawdown reaches the force-close
threshold, else the warning line at the block-new threshold, else the
reminder line at the warning threshold, each boundary inclusive. -/
def drawdownPromptWarning (warningPercent blockNewPercent forceClosePercent dd : ℚ) :
    DrawdownPromptWarning :=
  if forceClosePercent ≤ dd then .critical
  else if blockNewPercent ≤ dd then .warning
  else if warningPercent ≤ dd then .reminder
  else .noWarning

/-- The enforced drawdown check of openPositionTool (tradeExecution.ts
lines 154-163): a new open is rejected exactly when the drawdown from the
peak balance has reached the block-new-position threshold. -/
def openBlockedByDrawdown (blockNewPercent dd : ℚ) : Bool :=
  decide (blockNewPercent ≤ dd)

/-- The account balance exit check, checkAccountThresholds (tradingLoop.ts
lines 1111-1129): the only trigger of close-all-positions-and-halt. It
returns true when the total balance is at or below the absolute stop-loss
threshold or at or above the absolute take-profit threshold, both in USDT;
it takes no drawdown percentage at all. -/
def checkAccountThresholds (totalBalance stopLossUsdt takeProfitUsdt : ℚ) : Bool :=
  if totalBalance ≤ stopLossUsdt then true
  else if takeProfitUsdt ≤ totalBalance then true
  else false

/-- Counterexample to C3: at the claimed scenario peak=1000, current=800
(drawdown 20) with thresholds 10/15/20, no force-close-all happens: the
only close-all-and-halt trigger, checkAccountThresholds, returns false at
that balance under the default absolute thresholds (50 and 10000 USDT, it
never reads the drawdown); what the code does is append the critical
advisory line to the decision prompt and reject new opens. -/
theorem drawdown_scenario_not_force_closed :
    drawdownFromPeak 1000 800 = 20 ∧
    checkAccountThresholds 800 50 10000 = false ∧
    drawdownPromptWarning 10 15 20 (drawdownFromPeak 1000 800) =
      DrawdownPromptWarning.critical ∧
    openBlockedByDrawdown 15 (drawdownFromPeak 1000 800) = true := by
  have h20 : drawdownFromPeak 1000 800 = 20 := by norm_num [drawdownFromPeak]
  refine ⟨h20, ?_, ?_, ?_⟩
  · rw [checkAccountThresholds, if_neg (by norm_num), if_neg (by norm_num)]
  · rw [h20, drawdownPromptWarning, if_pos (by norm_num)]
  · rw [h20, openBlockedByDrawdown]
    norm_num

/-- C3 amended: the three-tier boundary-inclusive peak-drawdown mapping,
checked highest tier first, exists only in the prompt builder, where each
tier appends an advisory line (critical close-all warning, no-new-positions
warning, caution reminder) for the external decision generator; the only
enforced drawdown outcome is blocking new opens at or above the block-new
threshold; force-close-all-and-halt is triggered solely by the absolute
USDT balance thresholds, independent of any drawdown percentage. -/
theorem account_drawdown_tiers_amended :
    (∀ w b f dd : ℚ,
      (drawdownPromptWarning w b f dd = .critical ↔ f ≤ dd) ∧
      (drawdownPromptWarning w b f dd = .warning ↔ dd < f ∧ b ≤ dd) ∧
      (drawdownPromptWarning w b f dd = .reminder ↔ dd < f ∧ dd < b ∧ w ≤ dd) ∧
      (drawdownPromptWarning w b f dd = .noWarning ↔ dd < f ∧ dd < b ∧ dd < w)) ∧
    (∀ b dd : ℚ, openBlockedByDrawdown b dd = true ↔ b ≤ dd) ∧
    (∀ totalBalance stopLossUsdt takeProfitUsdt : ℚ,
      checkAccountThresholds totalBalance stopLossUsdt takeProfitUsdt = true ↔
        totalBalance ≤ stopLossUsdt ∨ takeProfitUsdt ≤ totalBalance) := by
  refine ⟨?_, ?_, ?_⟩
  · intro w b f dd
    unfold drawdownPromptWarning
    split_ifs with h1 h2 h3 <;>
      refine ⟨?_, ?_, ?_, ?_⟩ <;> simp_all [not_le]
  · intro b dd
    simp [openBlockedByDrawdown]
  · intro totalBalance stopLossUsdt takeProfitUsdt
    unfold checkAccountThresholds
    split_ifs with h1 h2 <;> simp_all

/-- Acceptance of the requested leverage by openPositionTool
(tradeExecution.ts line 89): rejected exactly when leverage < 1 or
leverage > the configured MAX_LEVERAGE. -/
def leverageAccepted (maxLeverage leverage : ℚ) : Bool :=
  !(decide (leverage < 1) || decide (maxLeverage < leverage))

/-- Trading strategy selector (part_007 lines 53 and 217-224). -/
inductive TradingStrategy
  | conservative
  | balanced
  | aggressive
deriving DecidableEq, Repr

/-- Leverage range of a strategy. -/
structure LeverageRange where
  leverageMin : ℚ
  leverageMax : ℚ
deriving DecidableEq, Repr

/-- Strategy leverage ranges derived from the configured maximum leverage,
getStrategyParams (part_007 lines 88-111): conservative 30-60 percent of
max, balanced 60-85 percent, aggressive 85-100 percent, each rounded up
with the listed lower bounds. -/
def strategyLeverageRange (strategy : TradingStrategy) (maxLeverage : ℚ) :
    LeverageRange :=
  match strategy with
  | .conservative =>
    { leverageMin := max 1 ⌈maxLeverage * (3 / 10)⌉
      leverageMax := max 2 ⌈maxLeverage * (6 / 10)⌉ }
  | .balanced =>
    { leverageMin := max 2 ⌈maxLeverage * (6 / 10)⌉
      leverageMax := max 3 ⌈maxLeverage * (85 / 100)⌉ }
  | .aggressive =>
    { leverageMin := max 3 ⌈maxLeverage * (85 / 100)⌉
      leverageMax := maxLeverage }

/-- Counterexample to C7: with MAX_LEVERAGE = 20 the balanced strategy range
is [12, 17], yet openPositionTool accepts a requested leverage of 5, which
lies strictly below the strategy minimum. -/
theorem leverage_outside_strategy_range_accepted :
    leverageAccepted 20 5 = true ∧
    (strategyLeverageRange .balanced 20).leverageMin = 12 ∧
    (5 : ℚ) < (strategyLeverageRange .balanced 20).leverageMin := by
  have hceil : (⌈(20 : ℚ) * (6 / 10)⌉ : ℤ) = 12 := by norm_num
  have hmin : (strategyLeverageRange .balanced 20).leverageMin = 12 := by
    simp only [strategyLeverageRange, hceil]
    norm_num
  exact ⟨by norm_num [leverageAccepted], hmin, by rw [hmin]; norm_num⟩

/-- C7 amended: the open-position operation accepts a requested leverage
exactly when it lies within [1, MAX_LEVERAGE]; the strategy leverage range
is advisory (prompt guidance) and is not enforced at execution. -/
theorem leverage_bound_amended :
    ∀ maxLeverage leverage : ℚ,
      leverageAccepted maxLeverage leverage = true ↔
        1 ≤ leverage ∧ leverage ≤ maxLeverage := by
  intro m l
  simp only [leverageAccepted, Bool.not_eq_eq_eq_not, Bool.not_true,
    Bool.or_eq_false_iff, decide_eq_false_iff_not, not_lt]

/-- Close reason assigned by the forced risk-control check, one constructor
per reason string of tradingLoop.ts: the 36-hour limit message (line 1265),
the dynamic stop-loss message (line 1291), the trailing take-profit message
(line 1309) and the peak drawdown message (line 1322). -/
inductive CloseReason
  | maxHoldTime
  | stopLoss
  | trailingStop
  | peakDrawdown
deriving DecidableEq, Repr

/-- Leveraged PnL percentage (tradingLoop.ts lines 1225-1228): price change
percentage relative to entry, sign-flipped for a short, times leverage; zero
when the entry price is not positive. -/
def pnlPercent (side : Side) (leverage entryPrice currentPrice : ℚ) : ℚ :=
  (if 0 < entryPrice then (currentPrice - entryPrice) / entryPrice * 100 * side.sign
   else 0) * leverage

/-- Mid leverage tier boundary (tradingLoop.ts line 1275):
floor of (leverageMin + leverageMax) / 2. -/
def leverageMid (levMin levMax : ℚ) : ℤ :=
  ⌊(levMin + levMax) / 2⌋

/-- High leverage tier boundary (tradingLoop.ts line 1276):
floor of leverageMin + (leverageMax − leverageMin) × 0.75. -/
def leverageHigh (levMin levMax : ℚ) : ℤ :=
  ⌊levMin + (levMax - levMin) * (3 / 4)⌋

/-- The leverage-tiered stop-loss table of a strategy
(getStrategyParams, part_007 lines 131-135, 157-161, 183-187). -/
structure StrategyStopLoss where
  low : ℚ
  mid : ℚ
  high : ℚ
deriving DecidableEq, Repr

/-- Stop-loss threshold selection by leverage tier
(tradingLoop.ts lines 1278-1285): the high threshold at or above the high
boundary, else the mid threshold at or above the mid boundary, else low. -/
def stopLossTier (sl : StrategyStopLoss) (levMin levMax leverage : ℚ) : ℚ :=
  if (leverageHigh levMin levMax : ℚ) ≤ leverage then sl.high
  else if (leverageMid levMin levMax : ℚ) ≤ leverage then sl.mid
  else sl.low

/-- Trailing take-profit floor (tradingLoop.ts lines 1296-1304): a step
function of the current PnL percentage, defaulting to the stop-loss
threshold below 8. -/
def trailingFloor (stopLossPercent pnl : ℚ) : ℚ :=
  if 25 ≤ pnl then 15
  else if 15 ≤ pnl then 8
  else if 8 ≤ pnl then 3
  else stopLossPercent

/-- Decision of the forced risk-control check for one position:
the `shouldClose` flag and the `closeReason` value. -/
structure RiskDecision where
  shouldClose : Bool
  closeReason : Option CloseReason
deriving DecidableEq, Repr

/-- The per-position forced risk-control check of the trading loop
(tradingLoop.ts lines 1255-1324), transcribed statement by statement:
step a) sets close with the hold-time reason when holding ≥ 36 hours;
step b) overwrites with the stop-loss reason when pnl ≤ the tier threshold
(this step is not guarded on a previous match); step c) runs only when no
step so far matched and closes when pnl is below the trailing floor and the
floor exceeds the stop-loss threshold; step d) runs only when no step so far
matched and the peak exceeds 5, and closes when drawdown from the peak
reaches 30 percent. -/
def riskEvaluate (sl : StrategyStopLoss) (levMin levMax : ℚ) (side : Side)
    (leverage entryPrice currentPrice holdingHours peakPnlPercent : ℚ) :
    RiskDecision :=
  let pnl := pnlPercent side leverage entryPrice currentPrice
  let d0 : RiskDecision := ⟨false, none⟩
  let d1 := if 36 ≤ holdingHours then RiskDecision.mk true (some .maxHoldTime) else d0
  let slp := stopLossTier sl levMin levMax leverage
  let d2 := if pnl ≤ slp then RiskDecision.mk true (some .stopLoss) else d1
  let d3 :=
    if d2.shouldClose = false then
      let tf := trailingFloor slp pnl
      if pnl < tf ∧ slp < tf then RiskDecision.mk true (some .trailingStop) else d2
    else d2
  let d4 :=
    if d3.shouldClose = false ∧ 5 < peakPnlPercent then
      let dd := if 0 < peakPnlPercent then (peakPnlPercent - pnl) / peakPnlPercent * 100
                else 0
      if 30 ≤ dd then RiskDecision.mk true (some .peakDrawdown) else d3
    else d3
  d4

/-- The balanced strategy stop-loss table (part_007 lines 157-161). -/
def balancedStopLoss : StrategyStopLoss :=
  { low := -3, mid := -5 / 2, high := -2 }

/-- Counterexample to C2: a position held 40 hours whose leveraged PnL is
also below the stop-loss threshold (long, leverage 10, entry 100, current
90, balanced strategy with range [12, 17]) closes with the stop-loss
reason, not the hold-time reason: the stop-loss step is not guarded on the
earlier hold-time match and overwrites its reason. -/
theorem hold_time_reason_overwritten :
    riskEvaluate balancedStopLoss 12 17 .long 10 100 90 40 0 =
      ⟨true, some .stopLoss⟩ ∧
    some CloseReason.stopLoss ≠ some CloseReason.maxHoldTime := by
  constructor
  · have hp : pnlPercent .long 10 100 90 = -100 := by
      norm_num [pnlPercent, Side.sign]
    have hmid : (leverageMid 12 17 : ℚ) = 14 := by
      norm_num [leverageMid]
    have hhigh : (leverageHigh 12 17 : ℚ) = 15 := by
      norm_num [leverageHigh]
    have hsl : stopLossTier balancedStopLoss 12 17 10 = -3 := by
      rw [stopLossTier, hmid, hhigh, if_neg (by norm_num), if_neg (by norm_num)]
      rfl
    simp only [riskEvaluate, hp, hsl]
    norm_num
  · simp

/-- C2 amended: a position whose holding time is at least 36 hours always
yields shouldClose = true, independent of PnL; its reason is the hold-time
reason exactly when the leverage-tiered stop-loss does not also match, and
the stop-loss reason when the leveraged PnL is at or below the tier
threshold; the trailing and peak-drawdown rules never change the reason once
one is set. -/
theorem hold_time_always_closes :
    ∀ (sl : StrategyStopLoss) (levMin levMax : ℚ) (side : Side)
      (leverage entryPrice currentPrice holdingHours peakPnlPercent : ℚ),
      36 ≤ holdingHours →
      (riskEvaluate sl levMin levMax side leverage entryPrice currentPrice
          holdingHours peakPnlPercent).shouldClose = true ∧
      (riskEvaluate sl levMin levMax side leverage entryPrice currentPrice
          holdingHours peakPnlPercent).closeReason =
        (if pnlPercent side leverage entryPrice currentPrice ≤
            stopLossTier sl levMin levMax leverage
         then some CloseReason.stopLoss else some CloseReason.maxHoldTime) := by
  intro sl levMin levMax side leverage entryPrice currentPrice holdingHours peak h36
  simp only [riskEvaluate, if_pos h36]
  by_cases hsl : pnlPercent side leverage entryPrice currentPrice ≤
      stopLossTier sl levMin levMax leverage <;>
    simp [hsl]

/-- Witness for C2 amended: balanced strategy, range [12, 17], long,
leverage 10, entry 100, current 101 (leveraged PnL 10 percent, above every
stop-loss threshold), held 40 hours: the evaluation closes with the
hold-time reason. -/
theorem hold_time_always_closes_witness :
    (riskEvaluate balancedStopLoss 12 17 .long 10 100 101 40 0).shouldClose = true ∧
    (riskEvaluate balancedStopLoss 12 17 .long 10 100 101 40 0).closeReason =
      some CloseReason.maxHoldTime := by
  obtain ⟨h1, h2⟩ :=
    hold_time_always_closes balancedStopLoss 12 17 .long 10 100 101 40 0 (by norm_num)
  refine ⟨h1, ?_⟩
  rw [h2]
  have hp : pnlPercent .long 10 100 101 = 10 := by
    norm_num [pnlPercent, Side.sign]
  have hmid : (leverageMid 12 17 : ℚ) = 14 := by norm_num [leverageMid]
  have hhigh : (leverageHigh 12 17 : ℚ) = 15 := by norm_num [leverageHigh]
  have hsl : stopLossTier balancedStopLoss 12 17 10 = -3 := by
    rw [stopLossTier, hmid, hhigh, if_neg (by norm_num), if_neg (by norm_num)]
    rfl
  rw [hp, hsl, if_neg (by norm_num)]

/-- The condition of the trailing take-profit step can never hold: the floor
is computed from the current PnL itself, so in every step-function branch
the PnL is at least the branch bound, which exceeds the branch floor, and in
the default branch the floor equals the stop-loss threshold and cannot
exceed it. -/
theorem trailing_condition_never_holds (slp pnl : ℚ) :
    ¬(pnl < trailingFloor slp pnl ∧ slp < trailingFloor slp pnl) := by
  unfold trailingFloor
  split_ifs with h1 h2 h3 <;> rintro ⟨ha, hb⟩ <;> linarith

/-- C5: the trailing take-profit rule is dead code: for every input the
evaluation never returns the trailing-stop reason; in particular, in the
spec scenario (long, leverage 10, entry 100, PnL dropped to 2 percent after
a persisted peak of 8), the position is closed by the peak-drawdown rule,
not the trailing-stop rule. -/
theorem trailing_stop_never_fires :
    (∀ (sl : StrategyStopLoss) (levMin levMax : ℚ) (side : Side)
      (leverage entryPrice currentPrice holdingHours peakPnlPercent : ℚ),
      (riskEvaluate sl levMin levMax side leverage entryPrice currentPrice
          holdingHours peakPnlPercent).closeReason ≠ some CloseReason.trailingStop) ∧
    riskEvaluate balancedStopLoss 12 17 .long 10 100 (501 / 5) 1 8 =
      ⟨true, some .peakDrawdown⟩ := by
  constructor
  · intro sl levMin levMax side leverage entryPrice currentPrice holdingHours peak
    have hnot := trailing_condition_never_holds
      (stopLossTier sl levMin levMax leverage)
      (pnlPercent side leverage entryPrice currentPrice)
    simp only [riskEvaluate, if_neg hnot]
    split_ifs <;> simp
  · have hp : pnlPercent .long 10 100 (501 / 5) = 2 := by
      norm_num [pnlPercent, Side.sign]
    have hmid : (leverageMid 12 17 : ℚ) = 14 := by norm_num [leverageMid]
    have hhigh : (leverageHigh 12 17 : ℚ) = 15 := by norm_num [leverageHigh]
    have hsl : stopLossTier balancedStopLoss 12 17 10 = -3 := by
      rw [stopLossTier, hmid, hhigh, if_neg (by norm_num), if_neg (by norm_num)]
      rfl
    have htf : trailingFloor (-3) 2 = -3 := by
      rw [trailingFloor, if_neg (by norm_num), if_neg (by norm_num), if_neg (by norm_num)]
    simp only [riskEvaluate, hp, hsl, htf]
    norm_num

/-- A row of the local positions table, with the columns touched by the
sync and risk-evaluation code paths. Optional columns are None when NULL;
`peakPnlPercent` is None when the column was never written for the row. -/
structure DbPositionRow where
  symbol : String
  quantity : ℚ
  entryPrice : ℚ
  currentPrice : ℚ
  liquidationPrice : ℚ
  unrealizedPnl : ℚ
  leverage : ℚ
  side : Side
  stopLoss : Option ℚ
  profitTarget : Option ℚ
  slOrderId : Option String
  tpOrderId : Option String
  entryOrderId : String
  openedAt : String
  peakPnlPercent : Option ℚ
deriving DecidableEq, Repr

/-- A position as reported by the exchange client getPositions call,
already filtered to non-zero positions, with the zero-price ticker fallback
and the liquidation-price estimate (tradingLoop.ts lines 740-758) taken as
already resolved into these fields. -/
structure ExchangePosition where
  symbol : String
  quantity : ℚ
  entryPrice : ℚ
  currentPrice : ℚ
  liquidationPrice : ℚ
  unrealizedPnl : ℚ
  leverage : ℚ
  side : Side
deriving DecidableEq, Repr

/-- Effective peak PnL percentage of a row as read by the evaluator
(tradingLoop.ts line 1239): the stored column, defaulting to 0 when the
column is NULL or missing. -/
def effectivePeak (row : DbPositionRow) : ℚ :=
  row.peakPnlPercent.getD 0

/-- The peak ratchet update of the forced risk-control check (tradingLoop.ts
lines 1230-1249): when the current leveraged PnL percentage exceeds the
stored peak, the peak column is updated to it; otherwise the row is kept. -/
def updatePeak (pnl : ℚ) (row : DbPositionRow) : DbPositionRow :=
  if effectivePeak row < pnl then { row with peakPnlPercent := some pnl } else row

/-- One row as inserted by syncPositionsFromGate (tradingLoop.ts lines
760-786): position data from the exchange, metadata columns preserved from
the previous row for the symbol when one exists; `peak_pnl_percent` is not
among the inserted columns, so its value is not preserved. -/
def syncInsertRow (nowIso : String) (old : Option DbPositionRow)
    (p : ExchangePosition) : DbPositionRow :=
  { symbol := p.symbol
    quantity := p.quantity
    entryPrice := p.entryPrice
    currentPrice := p.currentPrice
    liquidationPrice := p.liquidationPrice
    unrealizedPnl := p.unrealizedPnl
    leverage := p.leverage
    side := p.side
    stopLoss := old.bind (fun o => o.stopLoss)
    profitTarget := old.bind (fun o => o.profitTarget)
    slOrderId := old.bind (fun o => o.slOrderId)
    tpOrderId := old.bind (fun o => o.tpOrderId)
    entryOrderId :=
      match old with
      | some o => o.entryOrderId
      | none => "synced-" ++ p.symbol
    openedAt :=
      match old with
      | some o => o.openedAt
      | none => nowIso
    peakPnlPercent := none }

/-- The scheduler position sync, syncPositionsFromGate (tradingLoop.ts lines
709-799): when the exchange reports zero positions while the local table is
non-empty, the sync is skipped and the table kept; otherwise the table is
cleared and one row inserted per exchange position, preserving metadata from
the previous row for the same symbol. -/
def syncPositionsFromGate (nowIso : String) (positions : List ExchangePosition)
    (db : List DbPositionRow) : List DbPositionRow :=
  if positions.isEmpty ∧ ¬db.isEmpty then db
  else positions.map (fun p =>
    syncInsertRow nowIso (db.find? (fun row => row.symbol == p.symbol)) p)

/-- The agent-invoked sync tool, syncPositionsTool (accountManagement.ts
lines 305-353): the local positions table is cleared unconditionally and one
row inserted per exchange position with entry order id "synced" and the
current time as opening time; no metadata and no peak column is preserved. -/
def syncPositionsTool (nowIso : String) (positions : List ExchangePosition)
    (db : List DbPositionRow) : List DbPositionRow :=
  positions.map (fun p =>
    { symbol := p.symbol
      quantity := p.quantity
      entryPrice := p.entryPrice
      currentPrice := p.currentPrice
      liquidationPrice := p.liquidationPrice
      unrealizedPnl := p.unrealizedPnl
      leverage := p.leverage
      side := p.side
      stopLoss := none
      profitTarget := none
      slOrderId := none
      tpOrderId := none
      entryOrderId := "synced"
      openedAt := nowIso
      peakPnlPercent := none })

/-- A concrete local row: an open long position on BTC with a persisted peak
PnL of 10 percent. -/
def demoRow : DbPositionRow :=
  { symbol := "BTC"
    quantity := 100
    entryPrice := 50000
    currentPrice := 50500
    liquidationPrice := 45500
    unrealizedPnl := 50
    leverage := 10
    side := .long
    stopLoss := none
    profitTarget := none
    slOrderId := none
    tpOrderId := none
    entryOrderId := "order-1"
    openedAt := "2025-01-01T00:00:00"
    peakPnlPercent := some 10 }

/-- The same position as reported by the exchange on the next sync. -/
def demoExchangePos : ExchangePosition :=
  { symbol := "BTC"
    quantity := 100
    entryPrice := 50000
    currentPrice := 50500
    liquidationPrice := 45500
    unrealizedPnl := 50
    leverage := 10
    side := .long }

/-- C4: the claim that the persisted peakPnlPercent never moves backward is
violated by the position sync. The evaluation step is indeed a ratchet (the
effective peak never decreases under updatePeak), but syncPositionsFromGate
re-inserts every row without the peak column while preserving all other
metadata, so a persisted peak of 10 becomes an effective peak of 0 after one
sync in which the exchange reports the same position. -/
theorem peak_ratchet_reset_on_sync :
    (∀ (pnl : ℚ) (row : DbPositionRow),
      effectivePeak row ≤ effectivePeak (updatePeak pnl row)) ∧
    effectivePeak demoRow = 10 ∧
    syncPositionsFromGate "2025-01-02T00:00:00" [demoExchangePos] [demoRow] =
      [{ demoRow with peakPnlPercent := none }] ∧
    effectivePeak { demoRow with peakPnlPercent := none } = 0 := by
  refine ⟨?_, rfl, ?_, rfl⟩
  · intro pnl row
    unfold updatePeak
    split_ifs with h
    · simp only [effectivePeak] at h ⊢
      exact le_of_lt h
    · exact le_refl _
  · rfl

/-- Counterexample to C6: the sync operation syncPositionsTool, given an
exchange response of zero positions while the local table holds one row,
deletes the local row on that first observation. -/
theorem sync_tool_deletes_on_first_zero :
    syncPositionsTool "2025-01-02T00:00:00" [] [demoRow] = [] ∧
    [demoRow] ≠ ([] : List DbPositionRow) := by
  exact ⟨rfl, by simp⟩

/-- C6 amended: the scheduler sync (syncPositionsFromGate) deletes no local
row when the exchange reports zero positions while the local table is
non-empty — it skips the sync on every such observation, and no
repeat-observation deletion path exists; the agent-invoked syncPositions
tool, however, clears the local table unconditionally, already on the first
zero observation. -/
theorem sync_zero_mismatch_behavior :
    (∀ (nowIso : String) (db : List DbPositionRow), db ≠ [] →
      syncPositionsFromGate nowIso [] db = db) ∧
    (∀ (nowIso : String) (db : List DbPositionRow),
      syncPositionsTool nowIso [] db = []) := by
  constructor
  · intro nowIso db hdb
    unfold syncPositionsFromGate
    rw [if_pos]
    exact ⟨List.isEmpty_nil, by simpa using hdb⟩
  · intro nowIso _
    rfl

/-- Witness for C6 amended: with one local row and a zero exchange response
the scheduler sync keeps the local table unchanged. -/
theorem sync_zero_mismatch_behavior_witness :
    syncPositionsFromGate "2025-01-02T00:00:00" [] [demoRow] = [demoRow] :=
  sync_zero_mismatch_behavior.1 "2025-01-02T00:00:00" [demoRow] (by simp)

/-- The side actually sent to the exchange by openPositionTool
(tradeExecution.ts lines 71-78 and 271-277): when the REVERSE_POSITIONS
environment flag is enabled the requested side is replaced by its opposite
before any validation or order placement; otherwise the requested side is
used as given. -/
def executedSide (reversePositions : Bool) (requestedSide : Side) : Side :=
  if reversePositions then requestedSide.opposite else requestedSide

/-- Counterexample to C8: with the REVERSE_POSITIONS flag enabled, a
requested long open is executed as a short order — the executed side
differs from the side of the intent. -/
theorem reverse_mode_flips_requested_side :
    executedSide true .long = .short ∧ Side.short ≠ Side.long := by
  exact ⟨rfl, by simp⟩

/-- C8 amended: the executed order carries the side of the intent exactly
when the REVERSE_POSITIONS flag is disabled; when the flag is enabled the
executed side is the opposite of the requested side, hence always differs
from it. Other parameters remain subject only to the pre-trade guards. -/
theorem executed_side_of_intent :
    ∀ s : Side,
      executedSide false s = s ∧
      executedSide true s = s.opposite ∧
      executedSide true s ≠ s := by
  intro s
  refine ⟨rfl, rfl, ?_⟩
  cases s <;> simp [executedSide, Side.opposite]

end Nof1
